import Mathlib

/-!
Shallow embedding of the asset-pipeline scripts of the `landing` repository:
the grid image slicers (`process_textures.py`, `process_sprites.py`,
`process_pixel_adventure_2.py`), the white-to-transparent sprite converter
(`convert-sprites.py`), and the procedural walk-cycle keyframe synthesizer
(`create_walk_animation.py`).  Pixel coordinates and image sizes are natural
numbers (Python `//` is Nat division); animation phases are rationals; bone
transform values live in the reals (the scripts use `math.sin`/`math.cos`).
-/

namespace Landing

/-! ## Crop rectangles (PIL `Image.crop` boxes) -/

/-- A PIL crop box `(left, top, right, bottom)`; a pixel `(x, y)` belongs to it
iff `left ≤ x < right` and `top ≤ y < bottom`. -/
structure Rect where
  left : ℕ
  top : ℕ
  right : ℕ
  bottom : ℕ
  deriving DecidableEq

/-- Pixel membership in a crop box. -/
def inRect (r : Rect) (x y : ℕ) : Prop :=
  r.left ≤ x ∧ x < r.right ∧ r.top ≤ y ∧ y < r.bottom

/-- Two crop boxes share no pixel. -/
def rectDisjoint (a b : Rect) : Prop :=
  ∀ x y, ¬ (inRect a x y ∧ inRect b x y)

/-- The crop box of grid cell `(row, col)` for tile size `tw × th`:
`left = col*tw`, `top = row*th`, `right = left + tw`, `bottom = top + th`
(as computed in `split_texture_image` and both `process_sprite_sheet`s). -/
def tileRect (tw th row col : ℕ) : Rect :=
  ⟨col * tw, row * th, col * tw + tw, row * th + th⟩

/-! ## `process_textures.py` — fixed 4-row × 6-column splitter -/

/-- Row-major emission of all grid cells, as the nested
`for row in range(R): for col in range(C)` loops of the slicing scripts,
with tile size `floor(W/C) × floor(H/R)`. -/
def gridTiles (R C W H : ℕ) : List (ℕ × ℕ × Rect) :=
  (List.range R).flatMap fun row => (List.range C).map fun col =>
    (row, col, tileRect (W / C) (H / R) row col)

/-- Python `f"{n:02d}"` for the sequential texture index. -/
def pad2 (n : ℕ) : String :=
  if n < 10 then "0" ++ toString n else toString n

/-- Output filename of `split_texture_image`:
`f"{base_name}_r{row+1}c{col+1}_{texture_count+1:02d}.png"`. -/
def texture_name (base : String) (row col count : ℕ) : String :=
  base ++ "_r" ++ toString (row + 1) ++ "c" ++ toString (col + 1) ++ "_" ++
    pad2 (count + 1) ++ ".png"

/-- `split_texture_image` of `process_textures.py`: 4 rows × 6 columns,
tile size `width // 6 × height // 4`; the running `texture_count` at cell
`(row, col)` of the row-major loops equals `row * 6 + col`. -/
def split_texture_image (base : String) (W H : ℕ) : List (String × Rect) :=
  (List.range 4).flatMap fun row => (List.range 6).map fun col =>
    (texture_name base row col (row * 6 + col), tileRect (W / 6) (H / 4) row col)

/-- `split_texture_image` prints a warning iff
`width % 6 != 0 or height % 4 != 0`. -/
def split_texture_warns (W H : ℕ) : Bool :=
  W % 6 != 0 || H % 4 != 0

/-- Expected output of `split_texture_image` on a 1200×800 image with base
name `img`: 24 tiles of 200×200, named `r1c1`..`r4c6` with zero-padded
sequential indices `01`..`24`, in row-major order. -/
def texture_example : List (String × Rect) :=
  [("img_r1c1_01.png", ⟨0, 0, 200, 200⟩), ("img_r1c2_02.png", ⟨200, 0, 400, 200⟩),
   ("img_r1c3_03.png", ⟨400, 0, 600, 200⟩), ("img_r1c4_04.png", ⟨600, 0, 800, 200⟩),
   ("img_r1c5_05.png", ⟨800, 0, 1000, 200⟩), ("img_r1c6_06.png", ⟨1000, 0, 1200, 200⟩),
   ("img_r2c1_07.png", ⟨0, 200, 200, 400⟩), ("img_r2c2_08.png", ⟨200, 200, 400, 400⟩),
   ("img_r2c3_09.png", ⟨400, 200, 600, 400⟩), ("img_r2c4_10.png", ⟨600, 200, 800, 400⟩),
   ("img_r2c5_11.png", ⟨800, 200, 1000, 400⟩), ("img_r2c6_12.png", ⟨1000, 200, 1200, 400⟩),
   ("img_r3c1_13.png", ⟨0, 400, 200, 600⟩), ("img_r3c2_14.png", ⟨200, 400, 400, 600⟩),
   ("img_r3c3_15.png", ⟨400, 400, 600, 600⟩), ("img_r3c4_16.png", ⟨600, 400, 800, 600⟩),
   ("img_r3c5_17.png", ⟨800, 400, 1000, 600⟩), ("img_r3c6_18.png", ⟨1000, 400, 1200, 600⟩),
   ("img_r4c1_19.png", ⟨0, 600, 200, 800⟩), ("img_r4c2_20.png", ⟨200, 600, 400, 800⟩),
   ("img_r4c3_21.png", ⟨400, 600, 600, 800⟩), ("img_r4c4_22.png", ⟨600, 600, 800, 800⟩),
   ("img_r4c5_23.png", ⟨800, 600, 1000, 800⟩), ("img_r4c6_24.png", ⟨1000, 600, 1200, 800⟩)]

/-! ## `process_sprites.py` — stendhal 4-row × 3-column splitter -/

/-- The per-row side names: back, right, front, left. -/
def stendhal_sides : List String := ["back", "right", "front", "left"]

/-- Output filename `f"{base_name}_{side}_{frame_num}.png"`. -/
def stendhal_frame_name (base side : String) (frame_num : ℕ) : String :=
  base ++ "_" ++ side ++ "_" ++ toString frame_num ++ ".png"

/-- `process_sprite_sheet` of `process_sprites.py`: 4 rows (sides) × 3 columns
(frames), frame size `width // 3 × height // 4`, frame numbers 1-based. -/
def stendhal_process_sprite_sheet (base : String) (W H : ℕ) : List (String × Rect) :=
  (List.range 4).flatMap fun row => (List.range 3).map fun col =>
    (stendhal_frame_name base (stendhal_sides.getD row "") (col + 1),
     tileRect (W / 3) (H / 4) row col)

/-- `process_sprites.py` contains no dimension check at all: no branch of
`process_sprite_sheet` prints a warning for non-exact division. -/
def stendhal_warns (W H : ℕ) : Bool := false

/-! ## `process_pixel_adventure_2.py` — filename-driven horizontal splitter -/

/-- Decimal value of a digit string, as Python `int(...)` on the regex group. -/
def digitsVal (l : List Char) : ℕ :=
  l.foldl (fun a c => a * 10 + (c.toNat - 48)) 0

/-- Matcher for the regex tail `\s+\((\d+)x(\d+)\)\.png$` of
the `parse_filename` pattern, applied to the rest of the filename after the
lazily-matched animation-name group. -/
def matchDims : List Char → Option (ℕ × ℕ)
  | [] => none
  | c :: rest =>
    if c.isWhitespace then
      match rest.dropWhile Char.isWhitespace with
      | '(' :: r2 =>
        match r2.takeWhile Char.isDigit, r2.dropWhile Char.isDigit with
        | [], _ => none
        | ds1, 'x' :: r4 =>
          match r4.takeWhile Char.isDigit, r4.dropWhile Char.isDigit with
          | [], _ => none
          | ds2, r5 =>
            if r5 = [')', '.', 'p', 'n', 'g'] then
              some (digitsVal ds1, digitsVal ds2)
            else none
        | _, _ => none
      | _ => none
    else none

/-- Python `str.strip()`: drop leading and trailing whitespace. -/
def stripChars (l : List Char) : List Char :=
  ((l.dropWhile Char.isWhitespace).reverse.dropWhile Char.isWhitespace).reverse

/-- The lazy group `^(.+?)` of the `parse_filename` regex: try every non-empty
prefix as the animation name, shortest first, and accept the first split whose
remainder matches the dimension tail; the name group is then `.strip()`ped. -/
def parse_name : List Char → List Char → Option (String × ℕ × ℕ)
  | _, [] => none
  | acc, c :: rest =>
    match matchDims rest with
    | some (w, h) => some (String.mk (stripChars (acc ++ [c])), w, h)
    | none => parse_name (acc ++ [c]) rest

/-- `parse_filename` of `process_pixel_adventure_2.py`: match
`^(.+?)\s+\((\d+)x(\d+)\)\.png$` and return
`(animation_name.strip(), frame_width, frame_height)`. -/
def parse_filename (filename : String) : Option (String × ℕ × ℕ) :=
  parse_name [] filename.data

/-- Crop box of horizontal frame `i`:
`(i*frame_width, 0, i*frame_width + frame_width, frame_height)`. -/
def pa2_frame_rect (fw fh i : ℕ) : Rect :=
  ⟨i * fw, 0, i * fw + fw, fh⟩

/-- The `num_frames = sheet_width // frame_width` frames emitted by
`process_sprite_sheet`, each saved as `f"{frame_idx + 1}.png"`. -/
def pa2_frames (fw fh sheetW : ℕ) : List (String × Rect) :=
  (List.range (sheetW / fw)).map fun i =>
    (toString (i + 1) ++ ".png", pa2_frame_rect fw fh i)

/-- `process_sprite_sheet` of `process_pixel_adventure_2.py`: parse the
filename; on failure the sheet is skipped (`none`), otherwise all
`sheet_width // frame_width` frames are produced. -/
def pa2_process_sprite_sheet (filename : String) (sheetW sheetH : ℕ) :
    Option (List (String × Rect)) :=
  (parse_filename filename).map fun a => pa2_frames a.2.1 a.2.2 sheetW

/-- Warning `width (sheet_width) is not evenly divisible by frame width`. -/
def pa2_width_warns (sheetW fw : ℕ) : Bool :=
  sheetW % fw != 0

/-- Warning `height (sheet_height) does not match expected frame height`. -/
def pa2_height_warns (sheetH fh : ℕ) : Bool :=
  sheetH != fh

/-- Expected output frames for the sheet `Run (32x32).png` of width 256:
8 frames of 32×32, saved as `1.png` .. `8.png`. -/
def pa2_run_example : List (String × Rect) :=
  [("1.png", ⟨0, 0, 32, 32⟩), ("2.png", ⟨32, 0, 64, 32⟩),
   ("3.png", ⟨64, 0, 96, 32⟩), ("4.png", ⟨96, 0, 128, 32⟩),
   ("5.png", ⟨128, 0, 160, 32⟩), ("6.png", ⟨160, 0, 192, 32⟩),
   ("7.png", ⟨192, 0, 224, 32⟩), ("8.png", ⟨224, 0, 256, 32⟩)]

/-! ## `convert-sprites.py` — white-to-transparent conversion -/

/-- Per-pixel mapping of `convert_white_to_transparent`: an RGBA pixel with
`r > 240 and g > 240 and b > 240` becomes `(255, 255, 255, 0)`; any other
pixel is kept unchanged. -/
def convert_pixel (px : ℕ × ℕ × ℕ × ℕ) : ℕ × ℕ × ℕ × ℕ :=
  if 240 < px.1 ∧ 240 < px.2.1 ∧ 240 < px.2.2.1 then (255, 255, 255, 0) else px

/-- An RGBA image: dimensions plus the flat `getdata()` pixel list. -/
structure Img where
  width : ℕ
  height : ℕ
  data : List (ℕ × ℕ × ℕ × ℕ)

/-- `convert_white_to_transparent`: `putdata` of the mapped pixel list into
the same image, so the dimensions are untouched. -/
def convert_white_to_transparent (img : Img) : Img :=
  ⟨img.width, img.height, img.data.map convert_pixel⟩

/-! ## `create_walk_animation.py` — walk-cycle keyframe synthesizer -/

/-- `walk_frames = [1, 6, 11, 16, 21, 26, 31, 36, 40]`. -/
def walk_frames : List ℕ := [1, 6, 11, 16, 21, 26, 31, 36, 40]

/-- `cycle_pos = i / 8.0 if i < 8 else 0` for the `i`-th sample frame. -/
def cycle_pos (i : ℕ) : ℚ :=
  if i < 8 then (i : ℚ) / 8 else 0

/-- Python `math.radians`. -/
noncomputable def radians (d : ℚ) : ℝ := (d : ℝ) * Real.pi / 180

/-- Python float `%` on rationals: `a % b = a - b * floor(a / b)`. -/
def pymod (a b : ℚ) : ℚ := a - b * (⌊a / b⌋ : ℚ)

/-- `find_bone`: try `[bone_name] + alternatives` in order and return the
first name present in `pose_bones`; `None` when no listed name is present. -/
def find_bone (pose_bones : List String) (bone_name : String)
    (alternatives : List String) : Option String :=
  (bone_name :: alternatives).find? fun name => pose_bones.contains name

/-- The ten logical bone roles with their primary names and fallback aliases,
in the order of `bones_to_animate`. -/
def bone_roles : List (String × List String) :=
  [("CONTROL_HIPS", ["PELVIS", "PIV_HIPS"]),
   ("CONTROL_CHEST", ["STERNUM"]),
   ("CONTROL_FOOT.L", ["FOOT.L"]),
   ("CONTROL_FOOT.R", ["FOOT.R"]),
   ("FEMUR.L", ["MCH_femur.L"]),
   ("FEMUR.R", ["MCH_femur.R"]),
   ("HAND.L", []),
   ("HAND.R", []),
   ("HUMERUS.L", []),
   ("HUMERUS.R", [])]

/-- `available_bones`: the resolved bones of the roles whose resolution
succeeded, in role order; unresolved roles contribute nothing. -/
def available_bones (pose_bones : List String) : List String :=
  bone_roles.filterMap fun rc => find_bone pose_bones rc.1 rc.2

/-- The environment `create_walking_animation` runs in: whether
`skeleton.blend` exists, whether the scene holds an armature, the names of
the pose bone names of the armature, and whether the final GLB export
reports a FINISHED result. -/
structure WalkEnv where
  skeleton_exists : Bool
  has_armature : Bool
  pose_bones : List String
  export_finished : Bool

/-- Control flow of `create_walking_animation`, paired with the list of role
bones the run resolved: `return False` when `skeleton.blend` is missing, when
no armature is found, or when `available_bones` is empty; otherwise the run
keyframes the resolved bones and returns `True` — a non-`FINISHED` export
result is only printed, never returned. -/
def create_walking_animation (env : WalkEnv) : Bool × List String :=
  if env.skeleton_exists = false then (false, [])
  else if env.has_armature = false then (false, [])
  else if available_bones env.pose_bones = [] then (false, [])
  else (true, available_bones env.pose_bones)

/-- Hips keyframe at phase `p`: location `(forward_move, hip_sway,
hip_height)` and euler rotation `(0, 0, hip_rotation)`. -/
noncomputable def hips_pose (p : ℚ) : (ℝ × ℝ × ℝ) × (ℝ × ℝ × ℝ) :=
  let hip_height : ℝ := 0.2 * (0.5 + 0.5 * Real.cos ((p : ℝ) * 4 * Real.pi))
  let hip_sway : ℝ := 0.12 * Real.sin ((p : ℝ) * 2 * Real.pi)
  let forward_move : ℝ := (p : ℝ) * 1.0
  let hip_rotation : ℝ := radians 25 * Real.sin ((p : ℝ) * 2 * Real.pi)
  ((forward_move, hip_sway, hip_height), (0, 0, hip_rotation))

/-- Left thigh euler rotation: swing phase on `0.5 ≤ p < 1.0`
(`swing_progress = (p - 0.5) * 2`), otherwise support phase with
`support_progress = p * 2 if p < 0.5 else 0`. -/
noncomputable def left_leg_rotation (p : ℚ) : ℝ × ℝ × ℝ :=
  if 0.5 ≤ p ∧ p < 1.0 then
    (-(radians 80 * Real.sin ((((p - 0.5) * 2 : ℚ) : ℝ) * Real.pi)), 0, 0)
  else
    (radians 50 * (1 - (((if p < 0.5 then p * 2 else 0) : ℚ) : ℝ)), 0, 0)

/-- Right thigh euler rotation: swing phase on `0.0 ≤ p < 0.5`
(`swing_progress = p * 2`), otherwise support phase with
`support_progress = (p - 0.5) * 2`. -/
noncomputable def right_leg_rotation (p : ℚ) : ℝ × ℝ × ℝ :=
  if 0.0 ≤ p ∧ p < 0.5 then
    (-(radians 80 * Real.sin (((p * 2 : ℚ) : ℝ) * Real.pi)), 0, 0)
  else
    (radians 50 * (1 - (((p - 0.5) * 2 : ℚ) : ℝ)), 0, 0)

/-- Left foot keyframe (location, euler rotation) at phase `p`: swing window
`0.4 ≤ p < 0.9` with lift / forward-swing / plant sub-phases at
`swing_progress` thresholds 0.3 and 0.7; support phase otherwise, with the
push-off ramp guarded by Python truthiness of `support_progress`. -/
noncomputable def left_foot_pose (p : ℚ) : (ℝ × ℝ × ℝ) × (ℝ × ℝ × ℝ) :=
  if 0.4 ≤ p ∧ p < 0.9 then
    let swing_progress : ℚ := (p - 0.4) / 0.5
    if swing_progress < 0.3 then
      let foot_height : ℚ := 0.4 * (swing_progress / 0.3)
      let foot_forward : ℚ := 0.3 * (swing_progress / 0.3)
      (((foot_forward : ℝ), 0, (foot_height : ℝ)),
       (radians (-45) * ((swing_progress / 0.3 : ℚ) : ℝ), 0, 0))
    else if swing_progress < 0.7 then
      let foot_forward : ℚ := 0.3 + 0.8 * ((swing_progress - 0.3) / 0.4)
      (((foot_forward : ℝ), 0, ((0.4 : ℚ) : ℝ)), (radians (-30), 0, 0))
    else
      let plant_progress : ℚ := (swing_progress - 0.7) / 0.3
      let foot_height : ℚ := 0.4 * (1 - plant_progress)
      (((1.1 : ℝ), 0, (foot_height : ℝ)),
       (radians (-30 + 50 * plant_progress), 0, 0))
  else
    let support_progress : ℚ := if p < 0.4 then p else (p - 0.9) / 0.1
    let foot_forward : ℚ := 1.1 * (1 - support_progress * 2)
    (((foot_forward : ℝ), 0, 0),
     ((if support_progress ≠ 0 then
         radians 30 * ((max 0 ((support_progress * 2 - 0.8) / 0.2) : ℚ) : ℝ)
       else 0), 0, 0))

/-- Right foot keyframe at phase `p`: the source duplicates the left-foot
body verbatim, evaluated at `offset_cycle = (cycle_pos + 0.5) % 1.0`. -/
noncomputable def right_foot_pose (p : ℚ) : (ℝ × ℝ × ℝ) × (ℝ × ℝ × ℝ) :=
  let offset_cycle : ℚ := pymod (p + 0.5) 1.0
  if 0.4 ≤ offset_cycle ∧ offset_cycle < 0.9 then
    let swing_progress : ℚ := (offset_cycle - 0.4) / 0.5
    if swing_progress < 0.3 then
      let foot_height : ℚ := 0.4 * (swing_progress / 0.3)
      let foot_forward : ℚ := 0.3 * (swing_progress / 0.3)
      (((foot_forward : ℝ), 0, (foot_height : ℝ)),
       (radians (-45) * ((swing_progress / 0.3 : ℚ) : ℝ), 0, 0))
    else if swing_progress < 0.7 then
      let foot_forward : ℚ := 0.3 + 0.8 * ((swing_progress - 0.3) / 0.4)
      (((foot_forward : ℝ), 0, ((0.4 : ℚ) : ℝ)), (radians (-30), 0, 0))
    else
      let plant_progress : ℚ := (swing_progress - 0.7) / 0.3
      let foot_height : ℚ := 0.4 * (1 - plant_progress)
      (((1.1 : ℝ), 0, (foot_height : ℝ)),
       (radians (-30 + 50 * plant_progress), 0, 0))
  else
    let support_progress : ℚ :=
      if offset_cycle < 0.4 then offset_cycle else (offset_cycle - 0.9) / 0.1
    let foot_forward : ℚ := 1.1 * (1 - support_progress * 2)
    (((foot_forward : ℝ), 0, 0),
     ((if support_progress ≠ 0 then
         radians 30 * ((max 0 ((support_progress * 2 - 0.8) / 0.2) : ℚ) : ℝ)
       else 0), 0, 0))

/-- Left arm euler rotation `(arm_swing, arm_twist, arm_side)` with argument
`(cycle_pos + 0.5) * 2 * pi`. -/
noncomputable def left_arm_rotation (p : ℚ) : ℝ × ℝ × ℝ :=
  (radians 70 * Real.sin ((((p + 0.5) * 2 : ℚ) : ℝ) * Real.pi),
   radians 15 * Real.cos ((((p + 0.5) * 2 : ℚ) : ℝ) * Real.pi),
   radians 20 * Real.sin ((((p + 0.5) * 2 : ℚ) : ℝ) * Real.pi))

/-- Right arm euler rotation `(arm_swing, arm_twist, -arm_side)` with
argument `cycle_pos * 2 * pi`. -/
noncomputable def right_arm_rotation (p : ℚ) : ℝ × ℝ × ℝ :=
  (radians 70 * Real.sin (((p * 2 : ℚ) : ℝ) * Real.pi),
   radians 15 * Real.cos (((p * 2 : ℚ) : ℝ) * Real.pi),
   -(radians 20 * Real.sin (((p * 2 : ℚ) : ℝ) * Real.pi)))

/-- Left hand euler rotation `(hand_curl, 0, hand_twist)` with argument
`(cycle_pos + 0.3) * 2 * pi`. -/
noncomputable def left_hand_rotation (p : ℚ) : ℝ × ℝ × ℝ :=
  (radians 35 * Real.sin ((((p + 0.3) * 2 : ℚ) : ℝ) * Real.pi), 0,
   radians 20 * Real.cos ((((p + 0.3) * 2 : ℚ) : ℝ) * Real.pi))

/-- Right hand euler rotation with argument `(cycle_pos + 0.8) * 2 * pi`. -/
noncomputable def right_hand_rotation (p : ℚ) : ℝ × ℝ × ℝ :=
  (radians 35 * Real.sin ((((p + 0.8) * 2 : ℚ) : ℝ) * Real.pi), 0,
   radians 20 * Real.cos ((((p + 0.8) * 2 : ℚ) : ℝ) * Real.pi))

/-- Chest euler rotation `(chest_tilt + chest_lean, 0, -chest_twist)`. -/
noncomputable def chest_rotation (p : ℚ) : ℝ × ℝ × ℝ :=
  (radians 8 * Real.sin (((p * 4 : ℚ) : ℝ) * Real.pi) +
     radians 10 * Real.sin ((((p + 0.25) * 2 : ℚ) : ℝ) * Real.pi), 0,
   -(radians 20 * Real.sin (((p * 2 : ℚ) : ℝ) * Real.pi)))

/-- The ten animated bone roles. -/
inductive Role where
  | hips
  | chest
  | left_foot
  | right_foot
  | left_leg
  | right_leg
  | left_hand
  | right_hand
  | left_arm
  | right_arm

/-- The keyframed (location, euler rotation) the bone of a role receives at phase
`p`; `clear_transforms` zeroes the location first, and roles that only assign
`rotation_euler` keep the cleared `(0, 0, 0)` location. -/
noncomputable def role_keyframe (r : Role) (p : ℚ) : (ℝ × ℝ × ℝ) × (ℝ × ℝ × ℝ) :=
  match r with
  | .hips => hips_pose p
  | .chest => ((0, 0, 0), chest_rotation p)
  | .left_foot => left_foot_pose p
  | .right_foot => right_foot_pose p
  | .left_leg => ((0, 0, 0), left_leg_rotation p)
  | .right_leg => ((0, 0, 0), right_leg_rotation p)
  | .left_hand => ((0, 0, 0), left_hand_rotation p)
  | .right_hand => ((0, 0, 0), right_hand_rotation p)
  | .left_arm => ((0, 0, 0), left_arm_rotation p)
  | .right_arm => ((0, 0, 0), right_arm_rotation p)

/-! ## Helper lemmas -/

/-- Length of a row-major double loop over `range R` and `range C`. -/
theorem flatMapGrid_length {α : Type} (R C : ℕ) (f : ℕ → ℕ → α) :
    ((List.range R).flatMap fun row => (List.range C).map fun col => f row col).length
      = R * C := by
  induction R with
  | zero => simp
  | succ n ih =>
    rw [List.range_succ, List.flatMap_append, List.length_append, ih]
    simp [Nat.succ_mul]

/-- The element emitted at position `r * C + c` of a row-major double loop is
the one of cell `(r, c)`. -/
theorem flatMapGrid_getElem {α : Type} (R C : ℕ) (f : ℕ → ℕ → α) (r c : ℕ)
    (hr : r < R) (hc : c < C) :
    ((List.range R).flatMap fun row => (List.range C).map fun col => f row col)[r * C + c]?
      = some (f r c) := by
  induction R with
  | zero => omega
  | succ n ih =>
    rw [List.range_succ, List.flatMap_append]
    rcases Nat.lt_succ_iff_lt_or_eq.mp hr with h | h
    · rw [List.getElem?_append_left]
      · exact ih h
      · rw [flatMapGrid_length]
        calc r * C + c < r * C + C := by omega
          _ = (r + 1) * C := by ring
          _ ≤ n * C := Nat.mul_le_mul_right C h
    · subst h
      rw [List.getElem?_append_right]
      · rw [flatMapGrid_length]
        simp only [List.flatMap_singleton, List.getElem?_map]
        rw [Nat.add_sub_cancel_left, List.getElem?_range hc]
        rfl
      · rw [flatMapGrid_length]
        omega

/-- Two distinct length-`t` strips `[i*t, i*t + t)` and `[j*t, j*t + t)` of a
uniform partition cannot share a point. -/
theorem strip_disjoint {t i j x : ℕ} (hij : i < j)
    (h1 : x < i * t + t) (h2 : j * t ≤ x) : False := by
  have h3 : (i + 1) * t ≤ j * t := Nat.mul_le_mul_right t hij
  have h4 : i * t + t = (i + 1) * t := by ring
  omega

/-- Crop boxes of distinct grid cells are pixel-disjoint. -/
theorem tileRect_disjoint {tw th r c r2 c2 : ℕ} (hne : (r, c) ≠ (r2, c2)) :
    rectDisjoint (tileRect tw th r c) (tileRect tw th r2 c2) := by
  intro x y hxy
  obtain ⟨⟨a1, a2, a3, a4⟩, b1, b2, b3, b4⟩ := hxy
  simp only [tileRect] at a1 a2 a3 a4 b1 b2 b3 b4
  rcases Nat.lt_or_ge r r2 with h | h
  · exact strip_disjoint h a4 b3
  rcases Nat.lt_or_ge r2 r with h2 | h2
  · exact strip_disjoint h2 b4 a3
  have hrr : r = r2 := le_antisymm h2 h
  subst hrr
  have hcc : c ≠ c2 := by
    intro hc
    exact hne (by rw [hc])
  rcases Nat.lt_or_ge c c2 with h3 | h3
  · exact strip_disjoint h3 a2 b1
  · rcases Nat.lt_or_ge c2 c with h4 | h4
    · exact strip_disjoint h4 b2 a1
    · exact hcc (le_antisymm h4 h3)

/-- Every point below `n * t` lies in exactly the strip numbered `x / t`. -/
theorem strip_cover (t x n : ℕ) (hx : x < n * t) :
    x / t < n ∧ x / t * t ≤ x ∧ x < x / t * t + t := by
  have ht : 0 < t := by
    rcases Nat.eq_zero_or_pos t with h | h
    · subst h
      omega
    · exact h
  refine ⟨?_, Nat.div_mul_le_self x t, ?_⟩
  · exact (Nat.div_lt_iff_lt_mul ht).mpr hx
  · have h2 := Nat.mod_lt x ht
    calc x = t * (x / t) + x % t := (Nat.div_add_mod x t).symm
      _ < t * (x / t) + t := Nat.add_lt_add_left h2 _
      _ = x / t * t + t := by ring

/-- Python `(p + 0.5) % 1.0` for a phase in the lower half cycle. -/
theorem pymod_lo (p : ℚ) (h0 : 0 ≤ p) (h : p < 1/2) :
    pymod (p + 0.5) 1.0 = p + 1/2 := by
  have h1 : ((p + 0.5) / 1.0 : ℚ) = p + 1/2 := by norm_num
  have hf : ⌊(p + 0.5) / 1.0⌋ = 0 := by
    rw [h1, Int.floor_eq_zero_iff, Set.mem_Ico]
    constructor <;> linarith
  unfold pymod
  rw [hf]
  push_cast
  ring

/-- Python `(p + 0.5) % 1.0` for a phase in the upper half cycle. -/
theorem pymod_hi (p : ℚ) (h0 : 1/2 ≤ p) (h : p < 1) :
    pymod (p + 0.5) 1.0 = p - 1/2 := by
  have h1 : ((p + 0.5) / 1.0 : ℚ) = p + 1/2 := by norm_num
  have hf : ⌊(p + 0.5) / 1.0⌋ = 1 := by
    rw [h1, Int.floor_eq_iff]
    push_cast
    constructor <;> linarith
  unfold pymod
  rw [hf]
  push_cast
  ring

/-! ## Claims -/

/-- Claim C1: slicing a `W × H` image into an `R`-row by `C`-column grid
produces exactly `R * C` tiles; the tile at row-major position `r * C + c` is
the crop of `(c*tw, r*th, (c+1)*tw, (r+1)*th)` with `tw = W / C` and
`th = H / R`; distinct tiles are pixel-disjoint; the tiles exactly cover the
`(W / C) * C` by `(H / R) * R` region; and a 1200×800 image split 4 rows by
6 columns yields the 24 tiles of 200×200 named with row/column indices and a
zero-padded sequential index 01 through 24, in row-major order. -/
theorem grid_slicer_partition (R C W H r c r2 c2 : ℕ)
    (hr : r < R) (hc : c < C) (hr2 : r2 < R) (hc2 : c2 < C)
    (hne : (r, c) ≠ (r2, c2)) :
    (gridTiles R C W H).length = R * C ∧
    (gridTiles R C W H)[r * C + c]? = some (r, c, tileRect (W / C) (H / R) r c) ∧
    tileRect (W / C) (H / R) r c =
      ⟨c * (W / C), r * (H / R), (c + 1) * (W / C), (r + 1) * (H / R)⟩ ∧
    rectDisjoint (tileRect (W / C) (H / R) r c) (tileRect (W / C) (H / R) r2 c2) ∧
    (∀ x y, inRect (tileRect (W / C) (H / R) r c) x y →
      x < C * (W / C) ∧ y < R * (H / R)) ∧
    (∀ x y, x < C * (W / C) → y < R * (H / R) →
      ∃ r0 c0, r0 < R ∧ c0 < C ∧ inRect (tileRect (W / C) (H / R) r0 c0) x y) ∧
    split_texture_image "img" 1200 800 = texture_example := by
  refine ⟨flatMapGrid_length R C _, flatMapGrid_getElem R C _ r c hr hc, ?_, ?_, ?_, ?_, ?_⟩
  · have h1 : c * (W / C) + W / C = (c + 1) * (W / C) := by ring
    have h2 : r * (H / R) + H / R = (r + 1) * (H / R) := by ring
    rw [tileRect, h1, h2]
  · exact tileRect_disjoint hne
  · intro x y hxy
    obtain ⟨a1, a2, a3, a4⟩ := hxy
    simp only [tileRect] at a2 a4
    constructor
    · calc x < c * (W / C) + W / C := a2
        _ = (c + 1) * (W / C) := by ring
        _ ≤ C * (W / C) := Nat.mul_le_mul_right _ hc
    · calc y < r * (H / R) + H / R := a4
        _ = (r + 1) * (H / R) := by ring
        _ ≤ R * (H / R) := Nat.mul_le_mul_right _ hr
  · intro x y hx hy
    obtain ⟨e1, e2, e3⟩ := strip_cover (W / C) x C hx
    obtain ⟨f1, f2, f3⟩ := strip_cover (H / R) y R hy
    exact ⟨y / (H / R), x / (W / C), f1, e1, e2, e3, f2, f3⟩
  · decide

/-- Witness for C1 at `R = 4`, `C = 6`, `W = 1200`, `H = 800`, tiles
`(0, 1)` and `(1, 1)`. -/
theorem grid_slicer_partition_witness :
    (0 : ℕ) < 4 ∧ (1 : ℕ) < 6 ∧ (1 : ℕ) < 4 ∧ (1 : ℕ) < 6 ∧
    ((0, 1) : ℕ × ℕ) ≠ (1, 1) ∧
    ((gridTiles 4 6 1200 800).length = 4 * 6 ∧
     (gridTiles 4 6 1200 800)[0 * 6 + 1]? =
       some (0, 1, tileRect (1200 / 6) (800 / 4) 0 1) ∧
     tileRect (1200 / 6) (800 / 4) 0 1 =
       ⟨1 * (1200 / 6), 0 * (800 / 4), (1 + 1) * (1200 / 6), (0 + 1) * (800 / 4)⟩ ∧
     rectDisjoint (tileRect (1200 / 6) (800 / 4) 0 1)
       (tileRect (1200 / 6) (800 / 4) 1 1) ∧
     (∀ x y, inRect (tileRect (1200 / 6) (800 / 4) 0 1) x y →
       x < 6 * (1200 / 6) ∧ y < 4 * (800 / 4)) ∧
     (∀ x y, x < 6 * (1200 / 6) → y < 4 * (800 / 4) →
       ∃ r0 c0, r0 < 4 ∧ c0 < 6 ∧ inRect (tileRect (1200 / 6) (800 / 4) r0 c0) x y) ∧
     split_texture_image "img" 1200 800 = texture_example) :=
  ⟨by decide, by decide, by decide, by decide, by decide,
   grid_slicer_partition 4 6 1200 800 0 1 1 1 (by decide) (by decide) (by decide)
     (by decide) (by decide)⟩

/-- Claim C2: for every phase `p` in `[0, 1)`, the right-foot transform at
phase `p` equals the left-foot transform at phase `(p + 0.5) % 1.0`, and the
right-thigh rotation at phase `p` equals the left-thigh rotation at phase
`(p + 0.5) % 1.0`: the two legs are exact half-cycle phase-shifted copies. -/
theorem walk_phase_shift (p : ℚ) (h0 : 0 ≤ p) (h1 : p < 1) :
    right_foot_pose p = left_foot_pose (pymod (p + 0.5) 1.0) ∧
    right_leg_rotation p = left_leg_rotation (pymod (p + 0.5) 1.0) := by
  refine ⟨rfl, ?_⟩
  rcases lt_or_ge p (1/2) with h | h
  · rw [pymod_lo p h0 h, right_leg_rotation, left_leg_rotation,
      if_pos (show (0.0 : ℚ) ≤ p ∧ p < 0.5 by constructor <;> linarith),
      if_pos (show (0.5 : ℚ) ≤ p + 1/2 ∧ p + 1/2 < 1.0 by constructor <;> linarith)]
    have harg : ((p + 1/2 - 0.5) * 2 : ℚ) = p * 2 := by norm_num
    rw [harg]
  · rw [pymod_hi p h h1, right_leg_rotation, left_leg_rotation,
      if_neg (show ¬((0.0 : ℚ) ≤ p ∧ p < 0.5) by push_neg; intro; linarith),
      if_neg (show ¬((0.5 : ℚ) ≤ p - 1/2 ∧ p - 1/2 < 1.0) by push_neg; intro; linarith),
      if_pos (show (p - 1/2 : ℚ) < 0.5 by linarith)]
    have harg : ((p - 1/2) * 2 : ℚ) = (p - 0.5) * 2 := by norm_num
    rw [harg]

/-- Witness for C2 at `p = 1/4`. -/
theorem walk_phase_shift_witness :
    (0 : ℚ) ≤ 1/4 ∧ (1/4 : ℚ) < 1 ∧
    (right_foot_pose (1/4) = left_foot_pose (pymod (1/4 + 0.5) 1.0) ∧
     right_leg_rotation (1/4) = left_leg_rotation (pymod (1/4 + 0.5) 1.0)) :=
  ⟨by norm_num, by norm_num, walk_phase_shift (1/4) (by norm_num) (by norm_num)⟩

/-- Claim C3: at every phase `p` the hips location is exactly
`(forward, sway, height)` with `forward = p * 1.0` linear in `p`,
`sway = 0.12 * sin(2*pi*p)`, `height = 0.2 * (0.5 + 0.5*cos(4*pi*p))`, and
the yaw (third euler component) is `radians 25 * sin(2*pi*p)`. -/
theorem hips_pose_spec (p : ℚ) :
    hips_pose p = (((p : ℝ) * 1.0, 0.12 * Real.sin (2 * Real.pi * (p : ℝ)),
        0.2 * (0.5 + 0.5 * Real.cos (4 * Real.pi * (p : ℝ)))),
      (0, 0, radians 25 * Real.sin (2 * Real.pi * (p : ℝ)))) := by
  simp only [hips_pose]
  have h2 : (p : ℝ) * 2 * Real.pi = 2 * Real.pi * (p : ℝ) := by ring
  have h4 : (p : ℝ) * 4 * Real.pi = 4 * Real.pi * (p : ℝ) := by ring
  rw [h2, h4]

/-- Counterexample to Claim C4 as stated: the last sample frame (index 8)
receives phase `0`, not `index / k = 8 / 8 = 1`, and the phase sequence is
not monotonically non-decreasing across the whole ordered sample set, since
`cycle_pos 7 = 7/8 > 0 = cycle_pos 8`. -/
theorem cycle_pos_counterexample :
    cycle_pos 8 ≠ (8 : ℚ) / 8 ∧ ¬ (cycle_pos 7 ≤ cycle_pos 8) := by
  norm_num [cycle_pos]

/-- Claim C4 (amended): for the 9 ordered sample frames
`[1, 6, 11, 16, 21, 26, 31, 36, 40]`, the phase of sample `i` equals `i / 8`
for every `i < 8` and is strictly increasing over those samples; the final
sample frame wraps to phase `0`, the phase of the first sample. -/
theorem cycle_pos_amended (i j : ℕ) (hi : i < 8) (hj : j < 8) (hij : i < j) :
    cycle_pos i = (i : ℚ) / 8 ∧ cycle_pos i < cycle_pos j ∧ cycle_pos 8 = 0 ∧
    cycle_pos 8 = cycle_pos 0 ∧ walk_frames.length = 9 ∧
    List.Pairwise (fun a b => a < b) walk_frames := by
  refine ⟨by rw [cycle_pos, if_pos hi], ?_, by norm_num [cycle_pos],
    by norm_num [cycle_pos], by decide, by decide⟩
  rw [cycle_pos, if_pos hi, cycle_pos, if_pos hj]
  have hq : (i : ℚ) < j := by exact_mod_cast hij
  gcongr

/-- Witness for the amended C4 at `i = 2`, `j = 5`. -/
theorem cycle_pos_amended_witness :
    (2 : ℕ) < 8 ∧ (5 : ℕ) < 8 ∧ (2 : ℕ) < 5 ∧
    (cycle_pos 2 = ((2 : ℕ) : ℚ) / 8 ∧ cycle_pos 2 < cycle_pos 5 ∧ cycle_pos 8 = 0 ∧
     cycle_pos 8 = cycle_pos 0 ∧ walk_frames.length = 9 ∧
     List.Pairwise (fun a b => a < b) walk_frames) :=
  ⟨by decide, by decide, by decide,
   cycle_pos_amended 2 5 (by decide) (by decide) (by decide)⟩

/-- Claim C5: `create_walking_animation` returns `False` exactly when the run
resolved no role bones at all (which includes the early aborts for a missing
`skeleton.blend` or a missing armature, where nothing is resolved); in every
other circumstance it returns `True`, independently of whether the final GLB
export reports a FINISHED result. -/
theorem create_walking_animation_failure_iff (env : WalkEnv) :
    ((create_walking_animation env).1 = false ↔ (create_walking_animation env).2 = []) ∧
    ∀ b, (create_walking_animation
        ⟨env.skeleton_exists, env.has_armature, env.pose_bones, b⟩).1 =
      (create_walking_animation env).1 := by
  unfold create_walking_animation
  constructor
  · split_ifs with h1 h2 h3 <;> simp_all
  · intro b
    rfl

/-- Claim C6: `find_bone` tries the primary name then each alias in order and
returns the first name present: with aliases `[primary, alt1, alt2]`, if
`alt1` is present and `primary` is not, `alt1` is selected; if no listed name
is present the resolver returns `none`; a name only enters the processed
bone list through a successful resolution, so an unresolved role is excluded
from all remaining processing. -/
theorem find_bone_resolution (bones : List String) (primary alt1 alt2 : String)
    (h1 : primary ∉ bones) (h2 : alt1 ∈ bones) :
    find_bone bones primary [alt1, alt2] = some alt1 ∧
    (∀ name alts, (∀ n, n ∈ name :: alts → n ∉ bones) →
      find_bone bones name alts = none) ∧
    (∀ name alts, name ∈ bones → find_bone bones name alts = some name) ∧
    (∀ b, b ∈ available_bones bones →
      ∃ pa, pa ∈ bone_roles ∧ find_bone bones pa.1 pa.2 = some b) := by
  refine ⟨?_, ?_, ?_, ?_⟩
  · simp [find_bone, List.find?, h1, h2]
  · intro name alts hall
    rw [find_bone, List.find?_eq_none]
    intro x hx
    simp [hall x hx]
  · intro name alts h
    simp [find_bone, List.find?, h]
  · intro b hb
    rw [available_bones] at hb
    obtain ⟨pa, hpa, hfind⟩ := List.mem_filterMap.mp hb
    exact ⟨pa, hpa, hfind⟩

/-- Witness for C6: in a skeleton whose bones are `PELVIS` and `FOOT.L`,
`CONTROL_HIPS` is absent and the fallback `PELVIS` is selected. -/
theorem find_bone_resolution_witness :
    "CONTROL_HIPS" ∉ (["PELVIS", "FOOT.L"] : List String) ∧
    "PELVIS" ∈ (["PELVIS", "FOOT.L"] : List String) ∧
    (find_bone ["PELVIS", "FOOT.L"] "CONTROL_HIPS" ["PELVIS", "PIV_HIPS"] =
       some "PELVIS" ∧
     (∀ name alts, (∀ n, n ∈ name :: alts → n ∉ (["PELVIS", "FOOT.L"] : List String)) →
       find_bone ["PELVIS", "FOOT.L"] name alts = none) ∧
     (∀ name alts, name ∈ (["PELVIS", "FOOT.L"] : List String) →
       find_bone ["PELVIS", "FOOT.L"] name alts = some name) ∧
     (∀ b, b ∈ available_bones ["PELVIS", "FOOT.L"] →
       ∃ pa, pa ∈ bone_roles ∧ find_bone ["PELVIS", "FOOT.L"] pa.1 pa.2 = some b)) :=
  ⟨by decide, by decide,
   find_bone_resolution ["PELVIS", "FOOT.L"] "CONTROL_HIPS" "PELVIS" "PIV_HIPS"
     (by decide) (by decide)⟩

/-- Claim C7: a sheet whose filename parses as `(anim, fw, fh)` is sliced
into exactly `sheet_width / fw` frames, frame `i` being the crop
`(i*fw, 0, (i+1)*fw, fh)` saved under the 1-based contiguous name
`(i+1).png`; in particular `Run (32x32).png` of width 256 parses to
`("Run", 32, 32)` and yields 8 frames of 32×32 saved as `1.png` .. `8.png`. -/
theorem pa2_slicer_spec (filename anim : String) (fw fh sheetW sheetH i : ℕ)
    (hparse : parse_filename filename = some (anim, fw, fh)) (hi : i < sheetW / fw) :
    pa2_process_sprite_sheet filename sheetW sheetH = some (pa2_frames fw fh sheetW) ∧
    (pa2_frames fw fh sheetW).length = sheetW / fw ∧
    (pa2_frames fw fh sheetW)[i]? =
      some (toString (i + 1) ++ ".png", ⟨i * fw, 0, (i + 1) * fw, fh⟩) ∧
    parse_filename "Run (32x32).png" = some ("Run", 32, 32) ∧
    pa2_process_sprite_sheet "Run (32x32).png" 256 32 = some pa2_run_example := by
  refine ⟨?_, by simp [pa2_frames], ?_, by decide, by decide⟩
  · rw [pa2_process_sprite_sheet, hparse]
    rfl
  · rw [pa2_frames, List.getElem?_map, List.getElem?_range hi]
    have h : i * fw + fw = (i + 1) * fw := by ring
    simp [pa2_frame_rect, h]

/-- Witness for C7 on `Run (32x32).png`, sheet 256×32, frame index 3. -/
theorem pa2_slicer_spec_witness :
    parse_filename "Run (32x32).png" = some ("Run", 32, 32) ∧ (3 : ℕ) < 256 / 32 ∧
    (pa2_process_sprite_sheet "Run (32x32).png" 256 32 = some (pa2_frames 32 32 256) ∧
     (pa2_frames 32 32 256).length = 256 / 32 ∧
     (pa2_frames 32 32 256)[3]? =
       some (toString (3 + 1) ++ ".png", ⟨3 * 32, 0, (3 + 1) * 32, 32⟩) ∧
     parse_filename "Run (32x32).png" = some ("Run", 32, 32) ∧
     pa2_process_sprite_sheet "Run (32x32).png" 256 32 = some pa2_run_example) :=
  ⟨by decide, by decide,
   pa2_slicer_spec "Run (32x32).png" "Run" 32 32 256 32 3 (by decide) (by decide)⟩

/-- Counterexample to Claim C8 as stated: `process_sprites.py` completes its
full 12-frame slice on a 100×80 sheet whose width is not divisible by 3, but
prints no warning for the non-exact division. -/
theorem stendhal_missing_warning :
    ¬ (100 % 3 = 0) ∧ stendhal_warns 100 80 = false ∧
    (stendhal_process_sprite_sheet "bull" 100 80).length = 12 := by
  refine ⟨by decide, rfl, by decide⟩

/-- Claim C8 (amended): on any input dimensions, each slicing script
completes its full slice by flooring, with no error and no rejection;
`process_textures.py` warns exactly when the dimensions are not multiples of
the 6×4 grid and `process_pixel_adventure_2.py` warns exactly when the sheet
width is not a multiple of the parsed frame width, but `process_sprites.py`
never prints a warning. -/
theorem slicer_tolerates_nonexact (base : String) (W H fw fh sheetW : ℕ) :
    (split_texture_image base W H).length = 4 * 6 ∧
    (split_texture_warns W H = true ↔ ¬ (W % 6 = 0 ∧ H % 4 = 0)) ∧
    (stendhal_process_sprite_sheet base W H).length = 4 * 3 ∧
    stendhal_warns W H = false ∧
    (pa2_frames fw fh sheetW).length = sheetW / fw ∧
    (pa2_width_warns sheetW fw = true ↔ ¬ (sheetW % fw = 0)) := by
  refine ⟨flatMapGrid_length 4 6 _, ?_, flatMapGrid_length 4 3 _, rfl,
    by simp [pa2_frames], ?_⟩
  · rw [split_texture_warns]
    simp only [Bool.or_eq_true, bne_iff_ne, ne_eq]
    omega
  · rw [pa2_width_warns]
    simp

/-- Claim C9: the first and last sample frames (frames 1 and 40) are both
assigned phase 0, so every animated bone role receives an identical
(location, rotation) keyframe at the last sample frame and at the first: the
synthesized cycle closes seamlessly. -/
theorem walk_cycle_closes :
    cycle_pos 8 = cycle_pos 0 ∧ walk_frames[0]? = some 1 ∧ walk_frames[8]? = some 40 ∧
    ∀ r : Role, role_keyframe r (cycle_pos 8) = role_keyframe r (cycle_pos 0) := by
  have h : cycle_pos 8 = cycle_pos 0 := by norm_num [cycle_pos]
  exact ⟨h, by decide, by decide, fun r => by rw [h]⟩

/-- Claim C10: `convert_pixel` maps a pixel to the fully transparent value
`(255, 255, 255, 0)` iff each of its red, green and blue components is
strictly greater than 240; every other pixel is unchanged; and the converted
image keeps the dimensions (and pixel count) of the input. -/
theorem convert_pixel_spec (px : ℕ × ℕ × ℕ × ℕ) (img : Img) :
    (convert_pixel px = (255, 255, 255, 0) ↔
      240 < px.1 ∧ 240 < px.2.1 ∧ 240 < px.2.2.1) ∧
    (¬ (240 < px.1 ∧ 240 < px.2.1 ∧ 240 < px.2.2.1) → convert_pixel px = px) ∧
    (convert_white_to_transparent img).width = img.width ∧
    (convert_white_to_transparent img).height = img.height ∧
    (convert_white_to_transparent img).data.length = img.data.length := by
  refine ⟨⟨?_, ?_⟩, ?_, rfl, rfl, by simp [convert_white_to_transparent]⟩
  · intro h
    by_cases hc : 240 < px.1 ∧ 240 < px.2.1 ∧ 240 < px.2.2.1
    · exact hc
    · rw [convert_pixel, if_neg hc] at h
      subst h
      simp at hc
  · intro hc
    rw [convert_pixel, if_pos hc]
  · intro hc
    rw [convert_pixel, if_neg hc]

end Landing
